import Mathlib

/-!
Verification development for the spoiler-shield-mobile repository.

The definitions below are a shallow embedding of the repository's core
systems code:

* `MLEngine` (detection engine) from `src/services/YouTubeAPI.js`
  (second module in that file): `preprocessText`, `analyzeTerm`,
  `findFuzzyMatches`, `analyzeContextualMatch`, `findSpoilerMatches`,
  `calculateConfidence`, `createResult`, `analyzeText`, `updateStats`,
  together with `StorageService.updateStats` from the storage module.
* `PlatformManager` from the platform-manager module:
  `setPlatformEnabled`, `getEnabledPlatforms`, `fetchAllContent`,
  `getUnifiedFeed` (the feed merge).
* `RedditAPI` from `src/services/RedditAPI.js`: the error classification
  in `makeRequest` and the sample-data fallback in `getSubredditPosts`.
* The per-source rate limiting prologue (`RedditAPI.makeRequest`,
  `YouTubeAPI.enforceRateLimit`).

JS strings are modelled as `List Char`; JS numbers as `ℚ` (exact
rational arithmetic) or `ℤ` for millisecond timestamps; `Date.now()` and
`new Date()` become explicit `now : ℤ` parameters; the mutable
singleton state becomes explicit state passing.
-/

namespace SpoilerShield

/-- Characters matched by the JS regex class `\w`, i.e. `[A-Za-z0-9_]`. -/
def isWordChar (c : Char) : Bool := c.isAlphanum || c = '_'

/-- Helper for `collapseWs`: the boolean records whether the previous
character was whitespace (and has already emitted its single space). -/
def collapseWsAux : Bool → List Char → List Char
  | _, [] => []
  | prevWs, c :: rest =>
    if c.isWhitespace then
      if prevWs then collapseWsAux true rest
      else ' ' :: collapseWsAux true rest
    else
      c :: collapseWsAux false rest

/-- Collapse every maximal run of whitespace to a single space: the
`.replace(/\s+/g, ' ')` step of `MLEngine.preprocessText`. -/
def collapseWs (l : List Char) : List Char := collapseWsAux false l

/-- JS `String.prototype.trim`: drop leading and trailing whitespace. -/
def trimChars (l : List Char) : List Char :=
  ((l.dropWhile Char.isWhitespace).reverse.dropWhile Char.isWhitespace).reverse

/-- `MLEngine.preprocessText`: lower-case, replace `[^\w\s]` by a space,
collapse whitespace runs, trim. -/
def preprocessText (text : List Char) : List Char :=
  let lowered := text.map Char.toLower
  let depunct := lowered.map (fun c => if isWordChar c || c.isWhitespace then c else ' ')
  trimChars (collapseWs depunct)

/-- JS `text.includes(pat)`: substring containment. -/
def includes (text pat : List Char) : Bool := decide (pat <:+: text)

/-- The term with a trailing `s` removed: JS `term.replace(/s$/, '')`. -/
def stripTrailingS (term : List Char) : List Char :=
  if term.getLast? = some 's' then term.dropLast else term

/-- `MLEngine.findFuzzyMatches`: the five morphological variations of a
single-word term, filtered to those contained in the text. -/
def findFuzzyMatches (text term : List Char) : List (List Char) :=
  [ term,
    term ++ "s".toList,
    term ++ "ed".toList,
    term ++ "ing".toList,
    stripTrailingS term
  ].filter (fun variation => includes text variation)

/-- The fixed keyword list in `MLEngine.analyzeContextualMatch`. -/
def spoilerKeywords : List (List Char) :=
  [ "spoiler".toList, "spoilers".toList, "ending".toList, "finale".toList,
    "dies".toList, "death".toList, "winner".toList, "wins".toList,
    "loses".toList, "result".toList, "results".toList, "outcome".toList,
    "plot".toList, "twist".toList, "reveal".toList, "revealed".toList,
    "leaked".toList ]

/-- Result of one matching tier inside `MLEngine.analyzeTerm`
(the `{found: true, type, confidence, context}` object; `found: false`
is modelled by `Option`). -/
structure MatchInfo where
  matchKind : String
  confidence : ℚ
  matchCtx : String
deriving DecidableEq, Repr

/-- The analysis context `{type, isRecent}` passed to `analyzeText`.
`type` is `context.type` (absent field modelled as `none`), `isRecent`
the truthiness of `context.isRecent`. -/
structure Context where
  type : Option String
  isRecent : Bool
deriving DecidableEq, Repr

/-- `MLEngine.analyzeContextualMatch` (the `context` parameter of the JS
function is unused by its body). -/
def analyzeContextualMatch (text term : List Char) (_ctx : Context) : Option MatchInfo :=
  let hasSpoilerKeywords := spoilerKeywords.any (fun keyword => includes text keyword)
  if hasSpoilerKeywords && includes text ((term.splitOn ' ').headD []) then
    some ⟨ "contextual", 1/2, "spoiler_keywords_present" ⟩
  else
    none

/-- `MLEngine.analyzeTerm`: the tiered matching strategy (exact, fuzzy
single-word, multi-word complete/partial, contextual). -/
def analyzeTerm (text term : List Char) (ctx : Context) : Option MatchInfo :=
  if includes text term then
    some ⟨ "exact", 19/20, "exact_match" ⟩
  else if (!term.contains ' ') && !(findFuzzyMatches text term).isEmpty then
    some ⟨ "fuzzy", 7/10, "single_word_fuzzy" ⟩
  else if term.contains ' ' then
    let words := (term.splitOn ' ').filter (fun w => w.length > 2)
    let foundWords := words.filter (fun w => includes text w)
    if foundWords.length = words.length then
      some ⟨ "multi_word_complete", 9/10, "all_words_found" ⟩
    else if Nat.ceil ((words.length : ℚ) * (7/10)) ≤ foundWords.length then
      some ⟨ "multi_word_partial",
             3/5 + ((foundWords.length : ℚ) / (words.length : ℚ)) * (1/5),
             "partial_match_" ++ toString foundWords.length ++ "_of_" ++ toString words.length ⟩
    else
      analyzeContextualMatch text term ctx
  else
    analyzeContextualMatch text term ctx

/-- One entry of the `matches` array built by
`MLEngine.findSpoilerMatches` (`{term, matchType, confidence, context}`;
`term` is the original watchlist entry). -/
structure TermMatch where
  term : List Char
  matchType : String
  confidence : ℚ
  context : String
deriving DecidableEq, Repr

/-- `MLEngine.findSpoilerMatches`: analyze every watchlist term
(lower-cased and trimmed, skipping entries that become empty) and keep
the matches in watchlist order. -/
def findSpoilerMatches (text : List Char) (watchlist : List (List Char)) (ctx : Context) :
    List TermMatch :=
  watchlist.filterMap (fun term =>
    let termLower := trimChars (term.map Char.toLower)
    if termLower.isEmpty then none
    else
      (analyzeTerm text termLower ctx).map (fun m =>
        ⟨ term, m.matchKind, m.confidence, m.matchCtx ⟩))

def titleS : String := "title"
def bodyS : String := "body"
def commentS : String := "comment"
def usernameS : String := "username"
def subredditS : String := "subreddit"

/-- Lookup in `MLEngine.contextWeights` with the JS fallback
`this.contextWeights[context.type] || 1.0` (an absent or unknown type
falls back to weight 1; no listed weight is falsy). -/
def contextWeight (t : Option String) : ℚ :=
  if t = some titleS then 1
  else if t = some bodyS then 4/5
  else if t = some commentS then 3/5
  else if t = some usernameS then 3/10
  else if t = some subredditS then 2/5
  else 1

/-- JS `Math.round(q * 100) / 100` for the nonnegative confidences
produced by the engine (`Math.round` rounds ties toward positive
infinity). -/
def roundTo2 (q : ℚ) : ℚ := ((⌊q * 100 + 1/2⌋ : ℤ) : ℚ) / 100

/-- `MLEngine.calculateConfidence`: weighted average of the per-match
confidences (the weight is the content-type weight, identical for every
match of one call), then the multi-match boost, the `isRecent` boost and
the title boost, each capped at 0.95, rounded to two decimal places.
The JS `text` parameter is unused by the body. -/
def calculateConfidence (ms : List TermMatch) (_text : List Char) (ctx : Context) : ℚ :=
  if ms.length = 0 then 0
  else
    let weight := contextWeight ctx.type
    let confidence0 := ms.foldl (fun acc m => acc + m.confidence * weight) 0
    let weightSum := ms.foldl (fun acc _ => acc + weight) 0
    let c1 := if 0 < weightSum then confidence0 / weightSum else 0
    let c2 := if 1 < ms.length then
        min (19/20) (c1 + ((ms.length : ℚ) - 1) * (1/10))
      else c1
    let c3 := if ctx.isRecent then min (19/20) (c2 + 1/10) else c2
    let c4 := if ctx.type = some titleS then min (19/20) (c3 + 1/20) else c3
    roundTo2 c4

/-- The `DetectionResult` object built by `MLEngine.createResult`.
`timestamp` models `new Date().toISOString()` as the current time in
milliseconds (`toISOString` is injective on instants). -/
structure DetectionResult where
  hasSpoiler : Bool
  confidence : ℚ
  matchedTerms : List (List Char)
  detailedMatches : List TermMatch
  timestamp : ℤ
  version : String
deriving DecidableEq, Repr

/-- `MLEngine.createResult`. -/
def createResult (hasSpoiler : Bool) (confidence : ℚ) (ms : List TermMatch) (now : ℤ) :
    DetectionResult :=
  ⟨ hasSpoiler, confidence, ms.map (fun m => m.term), ms, now, "1.0.0-rule-based" ⟩

/-- The persisted statistics object of `StorageService`
(`{spoilersBlocked, postsScanned, lastScanDate}`). -/
structure Stats where
  spoilersBlocked : ℤ
  postsScanned : ℤ
  lastScanDate : ℤ
deriving DecidableEq, Repr

/-- `MLEngine.updateStats` composed with `StorageService.updateStats`:
add the increment `{postsScanned: 1, spoilersBlocked: hasSpoiler ? 1 : 0}`
to the stored statistics and refresh `lastScanDate`. -/
def updateStats (hasSpoiler : Bool) (now : ℤ) (s : Stats) : Stats :=
  { spoilersBlocked := s.spoilersBlocked + (if hasSpoiler then 1 else 0),
    postsScanned := s.postsScanned + 1,
    lastScanDate := now }

/-- The mutable state `MLEngine.analyzeText` interacts with through
`StorageService`: the stored watchlist (read only) and the stored
statistics (read and written). -/
structure EngineState where
  watchlist : List (List Char)
  stats : Stats
deriving DecidableEq, Repr

/-- `MLEngine.thresholds.low`. -/
def lowThreshold : ℚ := 3/10

/-- `MLEngine.analyzeText`: the full analysis pipeline, with its effect
on the stored statistics made explicit.  An empty (falsy) text or an
empty watchlist short-circuits to `{false, 0, []}` without touching the
statistics; otherwise the statistics are updated once per call. -/
def analyzeText (text : List Char) (ctx : Context) (st : EngineState) (now : ℤ) :
    DetectionResult × EngineState :=
  if text.isEmpty then
    (createResult false 0 [] now, st)
  else if st.watchlist.length = 0 then
    (createResult false 0 [] now, st)
  else
    let cleanText := preprocessText text
    let ms := findSpoilerMatches cleanText st.watchlist ctx
    let confidence := calculateConfidence ms cleanText ctx
    let hasSpoiler : Bool := decide (lowThreshold ≤ confidence)
    (createResult hasSpoiler confidence ms now,
     { st with stats := updateStats hasSpoiler now st.stats })

/-- The empty analysis context (`context = {}`). -/
def emptyContext : Context := ⟨ none, false ⟩

/-- Substring containment restated as the Mathlib infix relation. -/
theorem includes_eq_true_iff {text pat : List Char} :
    includes text pat = true ↔ pat <:+: text := by
  simp [includes]

/-- The watchlist term of the exact-match acceptance example. -/
def formula1Term : List Char := "Formula 1".toList

/-- The text of the exact-match acceptance example. -/
def hamiltonText : List Char := "Hamilton wins the Formula 1 race".toList

/-- The single match produced for the exact-match acceptance example. -/
def formula1Match : TermMatch := ⟨ formula1Term, "exact", 19/20, "exact_match" ⟩

example :
    preprocessText ("Hamilton wins the Formula 1 race".toList)
      = ("hamilton wins the formula 1 race".toList) := by decide

example :
    analyzeTerm ("hamilton wins the formula 1 race".toList) ("formula 1".toList) emptyContext
      = some ⟨ "exact", 19/20, "exact_match" ⟩ := by rfl

theorem findSpoilerMatches_formula1 (ctx : Context) :
    findSpoilerMatches (preprocessText hamiltonText) [ formula1Term ] ctx
      = [ formula1Match ] := by rfl

theorem calculateConfidence_formula1 :
    calculateConfidence [ formula1Match ] (preprocessText hamiltonText) emptyContext
      = 19/20 := by
  have hw : contextWeight none = 1 := rfl
  have ht : ((none : Option String) = some titleS) = False := by simp
  simp only [calculateConfidence, formula1Match, emptyContext, hw, ht, if_false]
  norm_num [roundTo2]

/-- C5: for the watchlist `["Formula 1"]` and the text
`"Hamilton wins the Formula 1 race"` with the empty context, `analyzeText`
returns `hasSpoiler = true`, `confidence = 0.95` and
`matchedTerms = ["Formula 1"]` — the exact-substring tier fires at 0.95
and the aggregation leaves the value unchanged. -/
theorem C5_exact_match_formula1 (stats : Stats) (now : ℤ) :
    ((analyzeText hamiltonText emptyContext ⟨ [ formula1Term ], stats ⟩ now).1.hasSpoiler = true)
    ∧ ((analyzeText hamiltonText emptyContext ⟨ [ formula1Term ], stats ⟩ now).1.confidence
        = 19/20)
    ∧ ((analyzeText hamiltonText emptyContext ⟨ [ formula1Term ], stats ⟩ now).1.matchedTerms
        = [ formula1Term ]) := by
  have key : analyzeText hamiltonText emptyContext ⟨ [ formula1Term ], stats ⟩ now
      = (createResult
          (decide (lowThreshold ≤
            calculateConfidence [ formula1Match ] (preprocessText hamiltonText) emptyContext))
          (calculateConfidence [ formula1Match ] (preprocessText hamiltonText) emptyContext)
          [ formula1Match ] now,
         ⟨ [ formula1Term ],
           updateStats
             (decide (lowThreshold ≤
               calculateConfidence [ formula1Match ] (preprocessText hamiltonText) emptyContext))
             now stats ⟩) := by rfl
  rw [key, calculateConfidence_formula1]
  refine ⟨ ?_, rfl, rfl ⟩
  simp only [createResult, decide_eq_true_eq]
  norm_num [lowThreshold]

/-- The lower-cased multi-word term of the partial-match boundary example
(what `analyzeTerm` receives for the watchlist entry
`"House of the Dragon"`). -/
def hotdTerm : List Char := "house of the dragon".toList

/-- C6 counterexample: splitting `"house of the dragon"` and keeping the
words of length > 2 keeps `the` (length 3) as well, so the claimed split
`[house, dragon]` with total = 2 is false — the split has three words. -/
theorem C6_counterexample :
    ((hotdTerm.splitOn ' ').filter (fun w => w.length > 2))
        ≠ [ "house".toList, "dragon".toList ]
    ∧ ((hotdTerm.splitOn ' ').filter (fun w => w.length > 2))
        = [ "house".toList, "the".toList, "dragon".toList ] := by
  constructor
  · decide
  · decide

theorem ceil_three_words : Nat.ceil ((3 : ℚ) * (7/10)) = 3 := by
  rw [show ((3 : ℚ) * (7/10)) = 21/10 by norm_num, Nat.ceil_eq_iff] <;> norm_num

/-- C6 amended: the words of length > 2 of `"house of the dragon"` are
`house`, `the` and `dragon` (total = 3).  For any text that contains
`dragon` but neither `house` nor `the`, `foundCount = 1` gives fraction
1/3 and stays below the `ceil(3 * 0.7) = 3` partial threshold, so no
match is recorded for this term: `analyzeTerm` returns no match and the
term contributes nothing to `findSpoilerMatches`. -/
theorem C6_amended (text : List Char) (ctx : Context)
    (hdragon : includes text ("dragon".toList) = true)
    (hhouse : includes text ("house".toList) = false)
    (hthe : includes text ("the".toList) = false) :
    analyzeTerm text hotdTerm ctx = none
    ∧ findSpoilerMatches text [ "House of the Dragon".toList ] ctx = [] := by
  have hexact : includes text hotdTerm = false := by
    cases hx : includes text hotdTerm with
    | false => rfl
    | true =>
      have hh : ("house".toList) <:+: text :=
        List.IsInfix.trans (by decide) (includes_eq_true_iff.mp hx)
      rw [includes_eq_true_iff.mpr hh] at hhouse
      exact absurd hhouse (by simp)
  have hsplit : ((hotdTerm.splitOn ' ').filter (fun w => w.length > 2))
      = [ "house".toList, "the".toList, "dragon".toList ] := by decide
  have hcontains : hotdTerm.contains ' ' = true := by decide
  have hhead : ((hotdTerm.splitOn ' ').headD []) = ("house".toList) := by decide
  have hterm : analyzeTerm text hotdTerm ctx = none := by
    simp only [analyzeTerm, hexact, hsplit, hcontains, analyzeContextualMatch, hhead,
      List.filter_cons, List.filter_nil, hhouse, hthe, hdragon,
      Bool.false_eq_true, Bool.not_true, Bool.false_and, Bool.and_false, if_false,
      if_true, List.length_cons, List.length_nil, ceil_three_words]
    norm_num
  refine ⟨ hterm, ?_ ⟩
  have hlower : trimChars (("House of the Dragon".toList).map Char.toLower) = hotdTerm := by
    decide
  have hempty : hotdTerm.isEmpty = false := by decide
  simp only [findSpoilerMatches, List.filterMap_cons, List.filterMap_nil, hlower, hempty,
    hterm, Option.map_none', Bool.false_eq_true, if_false]

/-- C6 witness text: `"dragon lore"` contains `dragon` but neither
`house` nor `the`. -/
theorem C6_amended_witness :
    analyzeTerm ("dragon lore".toList) hotdTerm emptyContext = none
    ∧ findSpoilerMatches ("dragon lore".toList) [ "House of the Dragon".toList ]
        emptyContext = [] :=
  C6_amended ("dragon lore".toList) emptyContext (by decide) (by decide) (by decide)

/-- Every field of a `DetectionResult` except the wall-clock
`timestamp`. -/
def resultData (r : DetectionResult) :
    Bool × ℚ × List (List Char) × List TermMatch × String :=
  (r.hasSpoiler, r.confidence, r.matchedTerms, r.detailedMatches, r.version)

theorem analyzeText_watchlist_eq (text : List Char) (ctx : Context) (st : EngineState)
    (now : ℤ) : ((analyzeText text ctx st now).2).watchlist = st.watchlist := by
  unfold analyzeText
  split
  · rfl
  split
  · rfl
  · rfl

theorem analyzeText_timestamp (text : List Char) (ctx : Context) (st : EngineState)
    (now : ℤ) : (analyzeText text ctx st now).1.timestamp = now := by
  unfold analyzeText
  split
  · rfl
  split
  · rfl
  · rfl

theorem analyzeText_resultData_eq (text : List Char) (ctx : Context)
    (st st' : EngineState) (now1 now2 : ℤ) (hw : st'.watchlist = st.watchlist) :
    resultData (analyzeText text ctx st now1).1
      = resultData (analyzeText text ctx st' now2).1 := by
  obtain ⟨w, s⟩ := st
  obtain ⟨w2, s2⟩ := st'
  simp only at hw
  subst hw
  unfold analyzeText
  by_cases h1 : text.isEmpty = true
  · simp [h1, resultData, createResult]
  · by_cases h2 : w2.length = 0
    · simp [h1, h2, resultData, createResult]
    · simp [h1, h2, resultData, createResult]

/-- A concrete engine state used by the counterexamples: the watchlist
`["day"]` and zeroed statistics. -/
def cxState : EngineState := ⟨ [ "day".toList ], ⟨ 0, 0, 0 ⟩ ⟩

/-- C2 counterexample: two `analyzeText` calls with identical text,
context and watchlist (and no watchlist mutation in between) made at two
different instants (millisecond timestamps 0 and 1) return results that
are not equal, because `createResult` embeds `new Date().toISOString()`
in the `timestamp` field. -/
theorem C2_counterexample :
    (analyzeText ("day one".toList) emptyContext cxState 0).1
      ≠ (analyzeText ("day one".toList) emptyContext
          ((analyzeText ("day one".toList) emptyContext cxState 0).2) 1).1 := by
  intro h
  have ht := congrArg DetectionResult.timestamp h
  rw [analyzeText_timestamp, analyzeText_timestamp] at ht
  exact absurd ht (by norm_num)

/-- C2 amended: with identical text, watchlist snapshot and context and
no watchlist mutation between the calls, two `analyzeText` calls agree
on every field of the `DetectionResult` except the wall-clock
`timestamp` (`hasSpoiler`, `confidence`, `matchedTerms`,
`detailedMatches` and `version` are all equal); only the embedded
call-time `timestamp` can differ. -/
theorem C2_amended (text : List Char) (ctx : Context) (st : EngineState)
    (now1 now2 : ℤ) :
    resultData (analyzeText text ctx st now1).1
      = resultData (analyzeText text ctx
          ((analyzeText text ctx st now1).2) now2).1 :=
  analyzeText_resultData_eq text ctx st _ now1 now2
    (analyzeText_watchlist_eq text ctx st now1)

theorem analyzeText_stats_update (text : List Char) (ctx : Context) (st : EngineState)
    (now : ℤ) (h1 : text.isEmpty = false) (h2 : st.watchlist.length ≠ 0) :
    ∃ b : Bool, ((analyzeText text ctx st now).2).stats = updateStats b now st.stats := by
  unfold analyzeText
  rw [h1]
  simp only [Bool.false_eq_true, if_false]
  rw [if_neg h2]
  exact ⟨ _, rfl ⟩

/-- C3 counterexample: the engine itself writes to the statistics store.
One `analyzeText` call on a non-empty text with a non-empty watchlist
changes the stored statistics (`postsScanned` goes from 0 to 1), so
`Analyze` is not side-effect-free and the statistics sink is invoked by
the engine, not only by the integrating layer. -/
theorem C3_counterexample :
    ((analyzeText ("day one".toList) emptyContext cxState 5).2).stats
      ≠ cxState.stats := by
  intro h
  have hp := congrArg Stats.postsScanned h
  obtain ⟨b, hb⟩ := analyzeText_stats_update ("day one".toList) emptyContext cxState 5
    (by decide) (by decide)
  rw [hb] at hp
  simp [updateStats, cxState] at hp

/-- C3 amended: `analyzeText` never mutates the watchlist, but it does
write to the statistics store: every call with non-empty text and a
non-empty watchlist replaces the stored statistics with
`updateStats hasSpoiler now` of the previous statistics (incrementing
`postsScanned`, and `spoilersBlocked` when a spoiler was found). -/
theorem C3_amended (text : List Char) (ctx : Context) (st : EngineState) (now : ℤ)
    (h1 : text.isEmpty = false) (h2 : st.watchlist.length ≠ 0) :
    ((analyzeText text ctx st now).2).watchlist = st.watchlist
    ∧ ∃ b : Bool, ((analyzeText text ctx st now).2).stats = updateStats b now st.stats :=
  ⟨ analyzeText_watchlist_eq text ctx st now,
    analyzeText_stats_update text ctx st now h1 h2 ⟩

/-- C3 witness: the amended statement evaluated on the concrete state
`cxState` with text `"day one"` at time 7. -/
theorem C3_amended_witness :
    ((analyzeText ("day one".toList) emptyContext cxState 7).2).watchlist
        = cxState.watchlist
    ∧ ∃ b : Bool, ((analyzeText ("day one".toList) emptyContext cxState 7).2).stats
        = updateStats b 7 cxState.stats :=
  C3_amended ("day one".toList) emptyContext cxState 7 (by decide) (by decide)

theorem contextWeight_pos (t : Option String) : 0 < contextWeight t := by
  unfold contextWeight
  split_ifs <;> norm_num

theorem foldl_conf_eq (ms : List TermMatch) (w a : ℚ) :
    ms.foldl (fun acc m => acc + m.confidence * w) a
      = a + (ms.map (fun m => m.confidence)).sum * w := by
  induction ms generalizing a with
  | nil => simp
  | cons m rest ih =>
    simp only [List.foldl_cons, List.map_cons, List.sum_cons, ih]
    ring

theorem foldl_weight_eq (ms : List TermMatch) (w a : ℚ) :
    ms.foldl (fun acc _ => acc + w) a = a + (ms.length : ℚ) * w := by
  induction ms generalizing a with
  | nil => simp
  | cons m rest ih =>
    simp only [List.foldl_cons, List.length_cons, ih]
    push_cast
    ring

/-- Normal form of `calculateConfidence` on a non-empty match list: the
per-call content-type weight multiplies every summand of the weighted
average identically and cancels, leaving the plain average of the match
confidences. -/
theorem calculateConfidence_eq (ms : List TermMatch) (text : List Char) (c : Context)
    (hne : ms ≠ []) :
    calculateConfidence ms text c
      = (let avg := (ms.map (fun m => m.confidence)).sum / (ms.length : ℚ)
         let c2 := if 1 < ms.length then
             min (19/20) (avg + ((ms.length : ℚ) - 1) * (1/10))
           else avg
         let c3 := if c.isRecent then min (19/20) (c2 + 1/10) else c2
         let c4 := if c.type = some titleS then min (19/20) (c3 + 1/20) else c3
         roundTo2 c4) := by
  have hlen : ms.length ≠ 0 := fun h => hne (List.length_eq_zero.mp h)
  have hlenQ : (0 : ℚ) < (ms.length : ℚ) := by
    exact_mod_cast Nat.pos_of_ne_zero hlen
  have hw := contextWeight_pos c.type
  have hws : (0 : ℚ) < (ms.length : ℚ) * contextWeight c.type :=
    mul_pos hlenQ hw
  simp only [calculateConfidence, foldl_conf_eq, foldl_weight_eq, zero_add]
  rw [if_neg hlen, if_pos hws, mul_div_mul_right _ _ (ne_of_gt hw)]

/-- C10: the aggregate confidence is independent of the content-type
weight.  For every non-empty match list and any two contexts that agree
on `isRecent` and on whether the type is `"title"`,
`calculateConfidence` returns the same value — in particular a
body-typed and a comment-typed text with the same matches always score
identically, because the per-call weight multiplies every match equally
and cancels out of the weighted average. -/
theorem C10_weight_cancels (ms : List TermMatch) (text : List Char) (c1 c2 : Context)
    (hne : ms ≠ [])
    (hr : c1.isRecent = c2.isRecent)
    (ht : (c1.type = some titleS) ↔ (c2.type = some titleS)) :
    calculateConfidence ms text c1 = calculateConfidence ms text c2 := by
  rw [calculateConfidence_eq ms text c1 hne, calculateConfidence_eq ms text c2 hne]
  simp only [hr, ht]

/-- C10 witness: one exact match scored in a body-typed and in a
comment-typed context produces the same confidence. -/
theorem C10_weight_cancels_witness :
    calculateConfidence [ ⟨ "x".toList, "exact", 19/20, "exact_match" ⟩ ] ("x".toList)
        ⟨ some bodyS, false ⟩
      = calculateConfidence [ ⟨ "x".toList, "exact", 19/20, "exact_match" ⟩ ] ("x".toList)
        ⟨ some commentS, false ⟩ :=
  C10_weight_cancels _ _ _ _ (by decide) rfl (by simp [bodyS, commentS, titleS])

/-- The `{enabled, configured}` flags of one entry of
`PlatformManager.platforms` (the `api`, `name`, `icon` and `color`
fields are constants irrelevant to the claims). -/
structure PlatformState where
  enabled : Bool
  configured : Bool
deriving DecidableEq, Repr

/-- The `this.platforms` table: an association list in object-key
order. -/
abbrev Registry := List (String × PlatformState)

/-- `PlatformManager.setPlatformEnabled`: if the platform exists, set
its `enabled` flag — unconditionally, with no check of `configured` and
no error path. -/
def setPlatformEnabled (reg : Registry) (platform : String) (enabled : Bool) : Registry :=
  reg.map (fun p => if p.1 = platform then (p.1, ⟨ enabled, p.2.configured ⟩) else p)

/-- `PlatformManager.getEnabledPlatforms`: the platforms that are both
enabled and configured, in table order. -/
def getEnabledPlatforms (reg : Registry) : List String :=
  (reg.filter (fun p => p.2.enabled && p.2.configured)).map (fun p => p.1)

def youtubeId : String := "youtube"
def newsId : String := "news"

/-- C1 counterexample: `setPlatformEnabled` on a platform with
`configured = false` succeeds and flips `enabled` to `true` — it does
not fail with `InvalidState` and does not leave `enabled` unchanged, so
a state with `enabled = true ∧ configured = false` is reachable. -/
theorem C1_counterexample :
    setPlatformEnabled [ (youtubeId, ⟨ false, false ⟩) ] youtubeId true
      = [ (youtubeId, ⟨ true, false ⟩) ] := by decide

/-- C1 amended: `setPlatformEnabled` never errors and touches only the
`enabled` flags (platform ids and `configured` flags are preserved); for
a present platform it sets `enabled` to the requested value regardless
of `configured`.  The invariant `enabled → configured` does not hold for
the stored state; instead the fetch path `getEnabledPlatforms` filters
to platforms that are both enabled and configured. -/
theorem C1_amended (reg : Registry) (platform : String) (b : Bool) :
    ((setPlatformEnabled reg platform b).map (fun e => (e.1, e.2.configured))
        = reg.map (fun e => (e.1, e.2.configured)))
    ∧ (∀ q, q ∈ getEnabledPlatforms reg →
        ∃ st, (q, st) ∈ reg ∧ st.enabled = true ∧ st.configured = true)
    ∧ (∀ st : PlatformState, (platform, st) ∈ reg →
        (platform, (⟨ b, st.configured ⟩ : PlatformState))
          ∈ setPlatformEnabled reg platform b) := by
  refine ⟨ ?_, ?_, ?_ ⟩
  · induction reg with
    | nil => rfl
    | cons hd tl ih =>
      simp only [setPlatformEnabled, List.map_cons] at ih ⊢
      rw [ih]
      by_cases h : hd.1 = platform
      · simp [h]
      · simp [h]
  · intro q hq
    simp only [getEnabledPlatforms, List.mem_map, List.mem_filter, Bool.and_eq_true] at hq
    obtain ⟨e, ⟨he, h1, h2⟩, rfl⟩ := hq
    exact ⟨e.2, he, h1, h2⟩
  · intro st hst
    simp only [setPlatformEnabled, List.mem_map]
    exact ⟨(platform, st), hst, by simp⟩

/-- C1 witness: the amended statement instantiated on a two-platform
registry with `youtube` unconfigured and `news` enabled and
configured. -/
theorem C1_amended_witness :
    ((setPlatformEnabled [ (youtubeId, ⟨ false, false ⟩), (newsId, ⟨ true, true ⟩) ]
          youtubeId true).map (fun e => (e.1, e.2.configured))
        = ([ (youtubeId, ⟨ false, false ⟩), (newsId, ⟨ true, true ⟩) ] : Registry).map
            (fun e => (e.1, e.2.configured)))
    ∧ (∃ st, (newsId, st) ∈ ([ (youtubeId, ⟨ false, false ⟩), (newsId, ⟨ true, true ⟩) ] : Registry)
        ∧ st.enabled = true ∧ st.configured = true)
    ∧ ((youtubeId, (⟨ true, false ⟩ : PlatformState))
        ∈ setPlatformEnabled [ (youtubeId, ⟨ false, false ⟩), (newsId, ⟨ true, true ⟩) ]
            youtubeId true) :=
  ⟨ (C1_amended _ youtubeId true).1,
    (C1_amended [ (youtubeId, ⟨ false, false ⟩), (newsId, ⟨ true, true ⟩) ] youtubeId true).2.1
      newsId (by decide),
    (C1_amended [ (youtubeId, ⟨ false, false ⟩), (newsId, ⟨ true, true ⟩) ] youtubeId true).2.2
      ⟨ false, false ⟩ (by decide) ⟩

/-- A content item as the unified feed sees it: `created` is the
resolved comparator key `new Date(a.created || a.published || 0)` in
milliseconds; `itemId` stands for the remaining payload fields. -/
structure FeedItem where
  itemId : String
  created : ℤ
deriving DecidableEq, Repr

/-- One value of the `results` object built by
`PlatformManager.fetchAllContent`: `{success, error?, content, count}`. -/
structure SourceStatus where
  success : Bool
  error : Option String
  content : List FeedItem
  count : ℕ
deriving DecidableEq, Repr

/-- `PlatformManager.fetchAllContent`: one task per enabled platform;
the per-platform dispatch (`fetchRedditContent`, `fetchTwitterContent`,
…) is supplied as `fetchFn`, which either returns a content list or
throws an error message.  A succeeding task stores
`{success: true, content, count: content.length}`; a throwing task is
caught in its own `catch` and stores
`{success: false, error: message, content: [], count: 0}`.  No error
escapes the function (it is total). -/
def fetchAllContent (reg : Registry) (fetchFn : String → Except String (List FeedItem)) :
    List (String × SourceStatus) :=
  (getEnabledPlatforms reg).map (fun platform =>
    match fetchFn platform with
    | Except.ok content => (platform, ⟨ true, none, content, content.length ⟩)
    | Except.error e => (platform, ⟨ false, some e, [], 0 ⟩))

/-- An item of the unified feed: the original item plus the platform tag
added by `getUnifiedFeed` (the `platformInfo` constants are elided). -/
structure UnifiedItem where
  item : FeedItem
  platform : String
deriving DecidableEq, Repr

/-- The combine step of `PlatformManager.getUnifiedFeed`: concatenate
the content of every entry with `success = true` (in results-object key
order), tagging each item with its platform. -/
def collectFeed (results : List (String × SourceStatus)) : List UnifiedItem :=
  (results.map (fun pr =>
    if pr.2.success then pr.2.content.map (fun it => ⟨ it, pr.1 ⟩) else [])).flatten

/-- C7: with the per-source fetches injected, `fetchAllContent` always
completes (it is a total function — no error is propagated): it reports
exactly the enabled platforms in order; every entry of a platform whose
fetch threw records `success = false` with the error message, empty
content and count 0; every entry of a succeeding platform records
`success = true` with its content and item count; and every item of the
combined feed comes from a platform whose fetch succeeded. -/
theorem C7_partial_failure (reg : Registry)
    (fetchFn : String → Except String (List FeedItem)) :
    ((fetchAllContent reg fetchFn).map (fun pr => pr.1) = getEnabledPlatforms reg)
    ∧ (∀ pr, pr ∈ fetchAllContent reg fetchFn →
        (∀ e, fetchFn pr.1 = Except.error e →
          pr.2 = ⟨ false, some e, [], 0 ⟩)
        ∧ (∀ items, fetchFn pr.1 = Except.ok items →
          pr.2 = ⟨ true, none, items, items.length ⟩))
    ∧ (∀ u, u ∈ collectFeed (fetchAllContent reg fetchFn) →
        ∃ items, fetchFn u.platform = Except.ok items ∧ u.item ∈ items) := by
  refine ⟨ ?_, ?_, ?_ ⟩
  · rw [fetchAllContent, List.map_map]
    have : ∀ p ∈ getEnabledPlatforms reg,
        ((fun pr => pr.1) ∘ (fun platform =>
          match fetchFn platform with
          | Except.ok content =>
              (platform, (⟨ true, none, content, content.length ⟩ : SourceStatus))
          | Except.error e => (platform, ⟨ false, some e, [], 0 ⟩))) p = p := by
      intro p _
      cases h : fetchFn p <;> simp [h]
    rw [List.map_congr_left this]
    simp
  · intro pr hpr
    simp only [fetchAllContent, List.mem_map] at hpr
    obtain ⟨platform, _, rfl⟩ := hpr
    cases h : fetchFn platform with
    | ok items =>
      dsimp only
      constructor
      · intro e he
        rw [h] at he
        exact absurd he (by simp)
      · intro items2 hi
        rw [h] at hi
        simp only [Except.ok.injEq] at hi
        subst hi
        rfl
    | error e =>
      dsimp only
      constructor
      · intro e2 he
        rw [h] at he
        simp only [Except.error.injEq] at he
        subst he
        rfl
      · intro items hi
        rw [h] at hi
        exact absurd hi (by simp)
  · intro u hu
    simp only [collectFeed, List.mem_flatten, List.mem_map] at hu
    obtain ⟨l, ⟨pr, hpr, rfl⟩, hul⟩ := hu
    simp only [fetchAllContent, List.mem_map] at hpr
    obtain ⟨platform, _, rfl⟩ := hpr
    cases h : fetchFn platform with
    | ok items =>
      rw [h] at hul
      dsimp only at hul
      rw [if_pos rfl] at hul
      simp only [List.mem_map] at hul
      obtain ⟨it, hit, rfl⟩ := hul
      exact ⟨items, h, hit⟩
    | error e =>
      rw [h] at hul
      dsimp only at hul
      rw [if_neg (by simp)] at hul
      exact absurd hul (by simp)

def srcA : String := "alpha"
def srcB : String := "beta"
def boomS : String := "boom"

/-- A concrete item on platform `alpha` (created at time 5). -/
def itemA : FeedItem := ⟨ "a1", 5 ⟩

/-- The injected fetch function of the C7 witness: `alpha` succeeds with
one item, every other platform throws. -/
def fetch7 (p : String) : Except String (List FeedItem) :=
  if p = srcA then Except.ok [ itemA ] else Except.error boomS

/-- The registry of the C7 witness: two enabled and configured
platforms. -/
def reg7 : Registry := [ (srcA, ⟨ true, true ⟩), (srcB, ⟨ true, true ⟩) ]

/-- C7 witness: on a two-platform registry where `beta` throws, the
status list keys are the enabled platforms, and the item of `alpha`
found in the combined feed traces back to `alpha`'s successful fetch. -/
theorem C7_partial_failure_witness :
    ((fetchAllContent reg7 fetch7).map (fun pr => pr.1) = getEnabledPlatforms reg7)
    ∧ (∃ items, fetch7 srcA = Except.ok items ∧ itemA ∈ items) :=
  ⟨ (C7_partial_failure reg7 fetch7).1,
    (C7_partial_failure reg7 fetch7).2.2 ⟨ itemA, srcA ⟩ (by decide) ⟩

/-- The sort key of the `getUnifiedFeed` comparator
(`a.created || a.published || new Date(0)`, resolved in `FeedItem`). -/
def sortKey (u : UnifiedItem) : ℤ := u.item.created

/-- The order decided by the comparator `(a, b) => dateB - dateA`:
descending by creation date (non-strict, so equal dates compare as
ties). -/
def feedOrder (a b : UnifiedItem) : Prop := sortKey b ≤ sortKey a

instance : DecidableRel feedOrder :=
  fun a b => (inferInstance : Decidable (sortKey b ≤ sortKey a))

instance : IsTotal UnifiedItem feedOrder :=
  ⟨ fun a b => le_total (sortKey b) (sortKey a) ⟩

instance : IsTrans UnifiedItem feedOrder :=
  ⟨ fun _ _ _ h1 h2 => le_trans h2 h1 ⟩

/-- The sort step of `PlatformManager.getUnifiedFeed`: JS
`Array.prototype.sort` is required to be stable, and a stable sort
under a total preorder is unique, so it is modelled by Mathlib's stable
`insertionSort` under `feedOrder`. -/
def mergeFeed (results : List (String × SourceStatus)) : List UnifiedItem :=
  List.insertionSort feedOrder (collectFeed results)

/-- Strict version of `feedOrder`, antisymmetric; used to show the
merge order is unique when all creation dates are distinct. -/
def feedStrict (a b : UnifiedItem) : Prop := sortKey b < sortKey a

instance : IsAntisymm UnifiedItem feedStrict :=
  ⟨ fun _ _ h1 h2 => absurd (lt_trans h1 h2) (lt_irrefl _) ⟩

/-- An item on platform `beta` with the same creation date as
`itemA`. -/
def itemB : FeedItem := ⟨ "b1", 5 ⟩

def statusA : SourceStatus := ⟨ true, none, [ itemA ], 1 ⟩
def statusB : SourceStatus := ⟨ true, none, [ itemB ], 1 ⟩

/-- C8 counterexample: the same per-source item sets presented in two
results-object key orders (the key order of `results` is the completion
order of the per-source tasks, not a configuration-defined priority)
merge to different orderings when two items from different sources tie
on `createdAt`: the merge does not impose a total order determined by
the per-source map alone. -/
theorem C8_counterexample :
    mergeFeed [ (srcA, statusA), (srcB, statusB) ]
      ≠ mergeFeed [ (srcB, statusB), (srcA, statusA) ] := by decide

theorem sorted_strict_of_distinct {l : List UnifiedItem}
    (hs : l.Sorted feedOrder)
    (hd : l.Pairwise (fun a b => sortKey a ≠ sortKey b)) :
    l.Sorted feedStrict := by
  have := List.Pairwise.and hs hd
  exact this.imp (fun h => lt_of_le_of_ne h.1 (Ne.symm h.2))

/-- C8 amended: the merge is a stable sort descending by `createdAt`;
the output is always a permutation of the combined feed and sorted
(non-strictly) descending.  Ties are broken by the order of the
results object, which follows task completion, not a fixed
configuration priority.  When all `createdAt` values are distinct the
ordering is uniquely determined: any two results lists whose combined
feeds are permutations of each other merge to the same list, so
repeated merges of identical per-source inputs agree. -/
theorem C8_amended (results1 results2 : List (String × SourceStatus))
    (hperm : List.Perm (collectFeed results1) (collectFeed results2))
    (hd : (collectFeed results1).Pairwise (fun a b => sortKey a ≠ sortKey b)) :
    mergeFeed results1 = mergeFeed results2
    ∧ (mergeFeed results1).Sorted feedOrder
    ∧ List.Perm (mergeFeed results1) (collectFeed results1) := by
  have hs1 : (mergeFeed results1).Sorted feedOrder :=
    List.sorted_insertionSort feedOrder _
  have hs2 : (mergeFeed results2).Sorted feedOrder :=
    List.sorted_insertionSort feedOrder _
  have hp1 : List.Perm (mergeFeed results1) (collectFeed results1) :=
    List.perm_insertionSort feedOrder _
  have hp2 : List.Perm (mergeFeed results2) (collectFeed results2) :=
    List.perm_insertionSort feedOrder _
  have hperm12 : List.Perm (mergeFeed results1) (mergeFeed results2) :=
    (hp1.trans hperm).trans hp2.symm
  have hd1 : (mergeFeed results1).Pairwise (fun a b => sortKey a ≠ sortKey b) :=
    (hp1.pairwise_iff (fun h => Ne.symm h)).mpr hd
  have hd2 : (mergeFeed results2).Pairwise (fun a b => sortKey a ≠ sortKey b) :=
    (hperm12.pairwise_iff (fun h => Ne.symm h)).mp hd1
  exact ⟨ List.eq_of_perm_of_sorted hperm12
            (sorted_strict_of_distinct hs1 hd1) (sorted_strict_of_distinct hs2 hd2),
          hs1, hp1 ⟩

/-- An item on platform `alpha` created at time 9. -/
def itemC : FeedItem := ⟨ "a2", 9 ⟩

/-- An item on platform `beta` created at time 4. -/
def itemD : FeedItem := ⟨ "b2", 4 ⟩

def statusC : SourceStatus := ⟨ true, none, [ itemC ], 1 ⟩
def statusD : SourceStatus := ⟨ true, none, [ itemD ], 1 ⟩

/-- C8 witness: with distinct creation dates (9 and 4) the two source
orders merge identically, descending and as a permutation of the
combined feed. -/
theorem C8_amended_witness :
    mergeFeed [ (srcA, statusC), (srcB, statusD) ]
        = mergeFeed [ (srcB, statusD), (srcA, statusC) ]
    ∧ (mergeFeed [ (srcA, statusC), (srcB, statusD) ]).Sorted feedOrder
    ∧ List.Perm (mergeFeed [ (srcA, statusC), (srcB, statusD) ])
        (collectFeed [ (srcA, statusC), (srcB, statusD) ]) :=
  C8_amended [ (srcA, statusC), (srcB, statusD) ] [ (srcB, statusD), (srcA, statusC) ]
    (by decide) (by decide)

/-- Lower-casing of a JS string (`subreddit.toLowerCase()`). -/
def lowerStr (s : String) : String := String.mk (s.data.map Char.toLower)

/-- A Reddit post as produced by `RedditAPI.formatPost`; only the id and
title matter to the claims, the remaining payload fields are elided. -/
structure RedditPost where
  postId : String
  title : String
deriving DecidableEq, Repr

/-- The parsed shape of a Reddit HTTP response body as
`RedditAPI.makeRequest` distinguishes it.  `listing` is JSON with the
expected `data.children` (posts already formatted); `other` is any
payload without that shape (unexpected JSON, or JSON that fails to
parse — both end in the same `catch`). -/
inductive RedditBody where
  | html : RedditBody
  | listing : List RedditPost → Option String → Option String → RedditBody
  | other : RedditBody
deriving DecidableEq, Repr

/-- One HTTP exchange as `RedditAPI.makeRequest` observes it. -/
structure RedditResponse where
  ok : Bool
  status : ℕ
  statusText : String
  body : RedditBody
deriving DecidableEq, Repr

def notFoundMsg : String := "Subreddit not found or private"
def rateLimitedMsg : String := "Rate limited - please wait before trying again"
def forbiddenMsg : String := "Access forbidden - subreddit may be private"
def htmlMsg : String := "Received HTML instead of JSON - Reddit may be blocking requests"

/-- The error-message selection of `RedditAPI.makeRequest` for a
non-ok HTTP status: plain strings keyed off the status code — there is
no typed error taxonomy (a 401 and a 500 both land in the generic
string). -/
def redditErrorMessage (status : ℕ) (statusText : String) : String :=
  if status = 404 then notFoundMsg
  else if status = 429 then rateLimitedMsg
  else if status = 403 then forbiddenMsg
  else "Reddit API error: " ++ toString status ++ " " ++ statusText

/-- `RedditAPI.makeRequest` after its rate-limit prologue: throw a
string-message error on a non-ok status or an HTML body, return the
parsed body otherwise. -/
def makeRequest (resp : RedditResponse) : Except String RedditBody :=
  if resp.ok = false then
    Except.error (redditErrorMessage resp.status resp.statusText)
  else
    match resp.body with
    | RedditBody.html => Except.error htmlMsg
    | b => Except.ok b

/-- The `{posts, after, before}` result of
`RedditAPI.getSubredditPosts`. -/
structure PostsResult where
  posts : List RedditPost
  after : Option String
  before : Option String
deriving DecidableEq, Repr

/-- The five hard-coded posts of `RedditAPI.getSamplePosts`, with the
id scheme `${subreddit.toLowerCase()}_sampleN_${timestamp}` (payload
fields beyond id and title elided). -/
def getSamplePosts (subreddit : String) (now : ℤ) : PostsResult :=
  let p := lowerStr subreddit
  { posts := [
      ⟨ p ++ "_sample1_" ++ toString now,
        "Hamilton wins dramatic Formula 1 race in spectacular fashion!" ⟩,
      ⟨ p ++ "_sample2_" ++ toString now,
        "House of the Dragon Season 2 finale discussion - SPOILERS" ⟩,
      ⟨ p ++ "_sample3_" ++ toString now,
        "Beautiful sunset from my backyard today" ⟩,
      ⟨ p ++ "_sample4_" ++ toString now,
        "Marvel Phase 5 announcement - Iron Man return confirmed!" ⟩,
      ⟨ p ++ "_sample5_" ++ toString now,
        "Today I learned that octopuses have three hearts" ⟩ ],
    after := some (p ++ "_sample_after_token_" ++ toString now),
    before := none }

/-- `RedditAPI.getSubredditPosts`: a listing-shaped response is
formatted and returned; every failure — a thrown request error or a
response without `data.children` (which throws
`Invalid response format from Reddit API` into the same `catch`) —
falls back to the sample posts.  No error ever reaches the caller. -/
def getSubredditPosts (resp : RedditResponse) (subreddit : String) (now : ℤ) : PostsResult :=
  match makeRequest resp with
  | Except.error _ => getSamplePosts subreddit now
  | Except.ok (RedditBody.listing posts a b) => ⟨ posts, a, b ⟩
  | Except.ok _ => getSamplePosts subreddit now

def allS : String := "all"
def notFoundS : String := "Not Found"

/-- A well-formed HTTP response whose JSON payload lacks the expected
`data.children` shape — a malformed payload. -/
def respMalformed : RedditResponse := ⟨ true, 200, "OK", RedditBody.other ⟩

/-- C4 counterexample: on a malformed payload the Reddit adapter does
not return a `Malformed` typed error with an empty item list — it
silently falls back to the five sample posts, reported as an ordinary
success. -/
theorem C4_counterexample :
    (getSubredditPosts respMalformed allS 0).posts.length = 5
    ∧ (getSubredditPosts respMalformed allS 0).posts ≠ [] := by
  constructor
  · rfl
  · decide

/-- C4 amended: the Reddit adapter signals failures only as untyped
string messages selected from the HTTP status (`404`/`429`/`403`
special-cased, everything else the generic
`Reddit API error: <status> <text>`), and `getSubredditPosts` never
surfaces any error: on every failed request — and on every malformed
payload — it returns the five sample posts instead, while a
listing-shaped response is returned as is.  (The registry layer stores
the raw `error.message` text, cf. `fetchAllContent`.) -/
theorem C4_amended (resp : RedditResponse) (subreddit : String) (now : ℤ) :
    (resp.ok = false →
      makeRequest resp = Except.error (redditErrorMessage resp.status resp.statusText))
    ∧ (∀ e, makeRequest resp = Except.error e →
        getSubredditPosts resp subreddit now = getSamplePosts subreddit now)
    ∧ ((getSamplePosts subreddit now).posts.length = 5)
    ∧ (∀ posts a b, resp.ok = true → resp.body = RedditBody.listing posts a b →
        getSubredditPosts resp subreddit now = ⟨ posts, a, b ⟩) := by
  refine ⟨ ?_, ?_, rfl, ?_ ⟩
  · intro h
    simp [makeRequest, h]
  · intro e he
    simp only [getSubredditPosts, he]
  · intro posts a b hok hbody
    simp [getSubredditPosts, makeRequest, hok, hbody]

/-- A 404 response. -/
def resp404 : RedditResponse := ⟨ false, 404, notFoundS, RedditBody.other ⟩

/-- C4 witness: the amended statement evaluated on a concrete 404
response. -/
theorem C4_amended_witness :
    makeRequest resp404
        = Except.error (redditErrorMessage resp404.status resp404.statusText)
    ∧ getSubredditPosts resp404 allS 3 = getSamplePosts allS 3
    ∧ (getSamplePosts allS 3).posts.length = 5 :=
  ⟨ (C4_amended resp404 allS 3).1 rfl,
    (C4_amended resp404 allS 3).2.1 _ ((C4_amended resp404 allS 3).1 rfl),
    (C4_amended resp404 allS 3).2.2.1 ⟩

/-- The mutable rate-limiter fields of one API client instance
(`lastRequestTime` in milliseconds and `requestCount`). -/
structure LimiterState where
  lastRequestTime : ℤ
  requestCount : ℕ
deriving DecidableEq, Repr

/-- The rate-limit prologue (`YouTubeAPI.enforceRateLimit`, and the
identical code at the top of `RedditAPI.makeRequest`): at current time
`now`, if less than `delay` has elapsed since `lastRequestTime`, await
a timer until `lastRequestTime + delay` (idealized exact timer; a real
`setTimeout` can only wake later, spacing grants further apart), then
record the grant time as the new `lastRequestTime` and bump
`requestCount`.  Returns the grant time and the new state. -/
def acquire (delay : ℤ) (st : LimiterState) (now : ℤ) : ℤ × LimiterState :=
  let grant := if now - st.lastRequestTime < delay then st.lastRequestTime + delay else now
  (grant, ⟨ grant, st.requestCount + 1 ⟩)

/-- `RedditAPI.rateLimitDelay` (1000 ms). -/
def redditRateLimitDelay : ℤ := 1000

/-- `YouTubeAPI.rateLimitDelay` (100 ms). -/
def youtubeRateLimitDelay : ℤ := 100

/-- The two limiter instances live in separate singleton objects with
separate fields: this is the whole shared state between them (none). -/
structure TwoClients where
  reddit : LimiterState
  youtube : LimiterState
deriving DecidableEq, Repr

/-- Acquire on the Reddit client: reads and writes only `reddit`. -/
def acquireReddit (s : TwoClients) (now : ℤ) : ℤ × TwoClients :=
  let r := acquire redditRateLimitDelay s.reddit now
  (r.1, ⟨ r.2, s.youtube ⟩)

/-- Acquire on the YouTube client: reads and writes only `youtube`. -/
def acquireYoutube (s : TwoClients) (now : ℤ) : ℤ × TwoClients :=
  let r := acquire youtubeRateLimitDelay s.youtube now
  (r.1, ⟨ s.reddit, r.2 ⟩)

/-- C9: consecutive grants of one source's limiter are always at least
the configured interval apart — for any arrival times, three
consecutive `acquire` calls with interval `d` produce grant times with
both gaps at least `d` (in particular three calls at 1000 ms are each
granted ≥ 1000 ms apart).  Each source's clock is independent: an
acquire on the Reddit client leaves the YouTube state untouched and
vice versa, and the grant time of a YouTube acquire depends only on the
YouTube limiter state, never on the Reddit one. -/
theorem C9_rate_limiter (st : LimiterState) (d t1 t2 t3 : ℤ)
    (s s2 : TwoClients) (now : ℤ) (hyt : s2.youtube = s.youtube) :
    (d ≤ (acquire d (acquire d st t1).2 t2).1 - (acquire d st t1).1)
    ∧ (d ≤ (acquire d (acquire d (acquire d st t1).2 t2).2 t3).1
        - (acquire d (acquire d st t1).2 t2).1)
    ∧ (acquireReddit s now).2.youtube = s.youtube
    ∧ (acquireYoutube s now).2.reddit = s.reddit
    ∧ (acquireYoutube s2 now).1 = (acquireYoutube s now).1 := by
  refine ⟨ ?_, ?_, rfl, rfl, ?_ ⟩
  · simp only [acquire]
    split_ifs <;> omega
  · simp only [acquire]
    split_ifs <;> omega
  · simp only [acquireYoutube, acquire, hyt]

/-- C9 witness: three concrete acquires at interval 1000 starting from
a fresh limiter, and two client pairs sharing the YouTube state. -/
theorem C9_rate_limiter_witness :
    (1000 ≤ (acquire 1000 (acquire 1000 ⟨ 0, 0 ⟩ 1).2 2).1 - (acquire 1000 ⟨ 0, 0 ⟩ 1).1)
    ∧ (1000 ≤ (acquire 1000 (acquire 1000 (acquire 1000 ⟨ 0, 0 ⟩ 1).2 2).2 3).1
        - (acquire 1000 (acquire 1000 ⟨ 0, 0 ⟩ 1).2 2).1)
    ∧ (acquireReddit ⟨ ⟨ 5, 1 ⟩, ⟨ 7, 2 ⟩ ⟩ 50).2.youtube = (⟨ 7, 2 ⟩ : LimiterState)
    ∧ (acquireYoutube ⟨ ⟨ 5, 1 ⟩, ⟨ 7, 2 ⟩ ⟩ 50).2.reddit = (⟨ 5, 1 ⟩ : LimiterState)
    ∧ (acquireYoutube ⟨ ⟨ 99, 3 ⟩, ⟨ 7, 2 ⟩ ⟩ 50).1
        = (acquireYoutube ⟨ ⟨ 5, 1 ⟩, ⟨ 7, 2 ⟩ ⟩ 50).1 :=
  C9_rate_limiter ⟨ 0, 0 ⟩ 1000 1 2 3 ⟨ ⟨ 5, 1 ⟩, ⟨ 7, 2 ⟩ ⟩ ⟨ ⟨ 99, 3 ⟩, ⟨ 7, 2 ⟩ ⟩ 50 rfl

end SpoilerShield
